import Mathlib

/-!
Verification of the MapTheAccused record-management application.

The repository ships the React frontend (App.js with the Search,
Dashboard, ManageAccused and ManageUsers pages, Navbar.js with the
PhotoUpload component, AccusedDetail.js, and utils/api.js) together with
its README and test report.  The FastAPI backend (backend/server.py)
referenced throughout the documentation is not part of the snapshot, so
the server-side operations (accused CRUD, search, statistics, photo
storage, role gates) are modelled from the specification, while every
client-side behaviour (result post-filters, the axios 401 interceptor,
the photo-upload validation, the empty-query shortcut) is translated
directly from the JavaScript sources.
-/

namespace MapTheAccused

/-! ## Strings: JavaScript `includes` / `toLowerCase` -/

/-- Embedding of prefix testing on character lists: `seqStartsWith n h`
holds when `n` is an initial segment of `h` (mirrors the inner loop of
JavaScript `String.prototype.includes`). -/
def seqStartsWith : List Char → List Char → Bool
  | [], _ => true
  | _ :: _, [] => false
  | a :: as, b :: bs => a == b && seqStartsWith as bs

/-- Embedding of substring containment on character lists: `seqHasSub n h`
holds when `n` occurs contiguously inside `h`. -/
def seqHasSub (needle : List Char) : List Char → Bool
  | [] => seqStartsWith needle []
  | b :: bs => seqStartsWith needle (b :: bs) || seqHasSub needle bs

/-- JavaScript `hay.includes(needle)`: substring containment on strings. -/
def strIncludes (hay needle : String) : Bool :=
  seqHasSub needle.data hay.data

/-- JavaScript `s.toLowerCase()`: lowercase every character. -/
def lowerChars (s : String) : List Char :=
  s.data.map Char.toLower

/-- JavaScript `hay.toLowerCase().includes(needle.toLowerCase())`:
case-insensitive substring containment, the comparison used by every
search and filter in the application. -/
def lcIncludes (hay needle : String) : Bool :=
  seqHasSub (lowerChars needle) (lowerChars hay)

theorem seqStartsWith_nil (h : List Char) : seqStartsWith [] h = true := by
  cases h <;> rfl

theorem seqHasSub_nil (h : List Char) : seqHasSub [] h = true := by
  cases h with
  | nil => rfl
  | cons b bs => simp [seqHasSub, seqStartsWith_nil]

theorem lcIncludes_empty (hay : String) : lcIncludes hay "" = true := by
  simp [lcIncludes, lowerChars, seqHasSub_nil]

/-! ## Data model -/

/-- The `AccusedRecord` entity (spec section 3; mirrors the fields of the
`formData` object in `ManageAccused` and the JSON consumed by the pages).
Coordinates and money amounts are floating-point numbers in the source;
none of the verified claims depends on float arithmetic, so both are
embedded as integers. -/
structure Accused where
  accused_id : String
  full_name : String
  phone_numbers : List String
  address : String
  fraud_amount : Int
  case_id : String
  fir_details : String
  police_station : String
  tags : List String
  profile_photo : Option String
  latitude : Option Int
  longitude : Option Int
  manual_coordinates : Bool
  created_by : String
  updated_by : Option String
deriving Repr, DecidableEq

/-- The create/update form payload submitted by `ManageAccused.handleSubmit`. -/
structure AccusedInput where
  full_name : String
  phone_numbers : List String
  address : String
  fraud_amount : Int
  case_id : String
  fir_details : String
  police_station : String
  tags : List String
  profile_photo : Option String
  latitude : Option Int
  longitude : Option Int
  manual_coordinates : Bool
deriving Repr, DecidableEq

/-! ## Client-side post-filters (Search page, `applyFilters` in App.js) -/

/-- Embedding of `applyFilters` from the Search page: the three filters
are applied in sequence to the base result set; an absent filter (empty
input field in the UI) leaves the set unchanged.
Amount: `accused.fraud_amount >= amount`.
City: `accused.police_station.toLowerCase().includes(c) ||
accused.address.toLowerCase().includes(c)`.
Tag: `accused.tags.some(tag => tag.toLowerCase().includes(t))`. -/
def applyFilters (base : List Accused) (filterAmount : Option Int)
    (filterCity : Option String) (filterTag : Option String) : List Accused :=
  let f1 := match filterAmount with
    | some amount => base.filter (fun accused => amount ≤ accused.fraud_amount)
    | none => base
  let f2 := match filterCity with
    | some c => f1.filter (fun accused =>
        lcIncludes accused.police_station c || lcIncludes accused.address c)
    | none => f1
  match filterTag with
  | some t => f2.filter (fun accused => accused.tags.any (fun tag => lcIncludes tag t))
  | none => f2

/-! ## The axios response interceptor (utils/api.js) -/

/-- Browser-visible client state touched by the interceptor: the bearer
token kept in localStorage and the current window location. -/
structure ClientState where
  token : Option String
  location : String
deriving Repr, DecidableEq

/-- Embedding of the axios response-interceptor pair in `utils/api.js`:
a success response (2xx, axios default `validateStatus`) flows through
the identity success handler; every other status reaches the error
handler, which clears the stored token and redirects to `/login` exactly
when `error.response.status === 401`. -/
def onResponseStatus (st : ClientState) (status : Nat) : ClientState :=
  if 200 ≤ status ∧ status < 300 then st
  else if status == 401 then { token := none, location := "/login" } else st

/-! ## Roles and errors (spec sections 4.1, 7) -/

/-- Role hierarchy of the application: user < admin < superadmin
(spec section 4.1 and the role selector in ManageUsers). -/
inductive Role
  | user
  | admin
  | superadmin
deriving Repr, DecidableEq

/-- Numeric rank realising the ordered role enum (spec section 9). -/
def roleRank : Role → Nat
  | Role.user => 0
  | Role.admin => 1
  | Role.superadmin => 2

/-- Modelled from the spec: `requireRole(identity, minimumRole)` of the
Auth Service (backend/server.py is not in the snapshot); a handler
requiring `admin` accepts admin and superadmin. -/
def requireRole (who minimum : Role) : Bool :=
  roleRank minimum ≤ roleRank who

/-- Error taxonomy of the HTTP boundary (spec section 7). -/
inductive ApiError
  | validation
  | forbidden
  | notFound
deriving Repr, DecidableEq

/-! ## Geocoding Client (spec section 4.3) -/

/-- Outcome of the single external OpenCage call: best-guess
coordinates, a not-found signal, a timeout, or a service error. -/
inductive GeoResult
  | found (lat lng : Int)
  | notFound
  | timeout
  | serviceError
deriving Repr, DecidableEq

/-! ## Case Service (spec section 4.2) -/

/-- Modelled from the spec: the field validation shared by create and
update in the missing backend/server.py — full name non-empty, at least
one non-empty phone number, address non-empty, fraud amount ≥ 0, case id
non-empty, police station non-empty, FIR details non-empty. -/
def validInput (u : AccusedInput) : Bool :=
  u.full_name ≠ "" &&
  u.phone_numbers.any (fun p => p ≠ "") &&
  u.address ≠ "" &&
  (0 : Int) ≤ u.fraud_amount &&
  u.case_id ≠ "" &&
  u.police_station ≠ "" &&
  u.fir_details ≠ ""

/-- Coordinates persisted for a manually-located input: the supplied
pair when both halves are present, absent otherwise (the spec's
invariant that latitude and longitude are present together). -/
def manualCoords (u : AccusedInput) : Option Int × Option Int :=
  match u.latitude, u.longitude with
  | some la, some ln => (some la, some ln)
  | _, _ => (none, none)

/-- Coordinates obtained from a geocoding outcome: the returned pair on
success, absent on not-found, timeout, or service error (spec sections
4.2, 5 and 7: geocoding is best-effort enrichment). -/
def geoCoords (geo : GeoResult) : Option Int × Option Int :=
  match geo with
  | GeoResult.found la ln => (some la, some ln)
  | _ => (none, none)

/-- Modelled from the spec: `create(input)` of the Case Service in the
missing backend/server.py.  Validates the fields; if
`manual_coordinates` is false it calls the Geocoding Client and stores
its outcome (coordinates absent on any geocode failure, never failing
the create); otherwise it stores the operator-supplied pair.  `geo` is
the outcome the external geocoder would return for the input's address. -/
def createAccused (u : AccusedInput) (geo : GeoResult) (creator : String)
    (newId : String) : Except ApiError Accused :=
  if validInput u then
    let coords := if u.manual_coordinates then manualCoords u else geoCoords geo
    Except.ok
      { accused_id := newId
        full_name := u.full_name
        phone_numbers := u.phone_numbers
        address := u.address
        fraud_amount := u.fraud_amount
        case_id := u.case_id
        fir_details := u.fir_details
        police_station := u.police_station
        tags := u.tags
        profile_photo := u.profile_photo
        latitude := coords.1
        longitude := coords.2
        manual_coordinates := u.manual_coordinates
        created_by := creator
        updated_by := none }
  else Except.error ApiError.validation

/-- Both stored coordinates of a record are absent. -/
def coordsAbsent (r : Accused) : Bool :=
  r.latitude.isNone && r.longitude.isNone

/-- Modelled from the spec: the re-geocoding decision of `update` in the
missing backend/server.py — geocode exactly when `manual_coordinates`
is false and the address changed or coordinates were previously absent
(spec sections 4.2 and 9). -/
def shouldGeocodeOnUpdate (r : Accused) (u : AccusedInput) : Bool :=
  !u.manual_coordinates && (u.address ≠ r.address || coordsAbsent r)

/-- Modelled from the spec: `update(id, input)` of the Case Service in
the missing backend/server.py.  Same validation as create; full replace
of the mutable fields; re-geocodes only when `shouldGeocodeOnUpdate`
holds, otherwise the stored coordinates are left untouched.  Returns the
updated record together with whether a geocoding call was performed. -/
def updateAccused (r : Accused) (u : AccusedInput) (geo : GeoResult)
    (updater : String) : Except ApiError (Accused × Bool) :=
  if validInput u then
    let willGeocode := shouldGeocodeOnUpdate r u
    let coords := if willGeocode then geoCoords geo else (r.latitude, r.longitude)
    Except.ok
      ({ accused_id := r.accused_id
         full_name := u.full_name
         phone_numbers := u.phone_numbers
         address := u.address
         fraud_amount := u.fraud_amount
         case_id := u.case_id
         fir_details := u.fir_details
         police_station := u.police_station
         tags := u.tags
         profile_photo := u.profile_photo
         latitude := coords.1
         longitude := coords.2
         manual_coordinates := u.manual_coordinates
         created_by := r.created_by
         updated_by := some updater }, willGeocode)
  else Except.error ApiError.validation

/-- Modelled from the spec: `get(id)` over the Record Store. -/
def getAccused (id : String) (store : List Accused) : Except ApiError Accused :=
  match store.find? (fun a => a.accused_id == id) with
  | some r => Except.ok r
  | none => Except.error ApiError.notFound

/-- Modelled from the spec: `delete(id)` at the HTTP boundary of the
missing backend/server.py — requires the superadmin role (403
otherwise), 404 on an unknown id; returns the outcome together with the
post-state of the Record Store. -/
def deleteEndpoint (who : Role) (id : String) (store : List Accused) :
    Except ApiError Unit × List Accused :=
  if who ≠ Role.superadmin then (Except.error ApiError.forbidden, store)
  else if store.any (fun a => a.accused_id == id) then
    (Except.ok (), store.filter (fun a => !(a.accused_id == id)))
  else (Except.error ApiError.notFound, store)

/-- Modelled from the spec: role gate of `POST /accused` — create
requires at least the admin role. -/
def createEndpoint (who : Role) (u : AccusedInput) (geo : GeoResult)
    (creator newId : String) : Except ApiError Accused :=
  if requireRole who Role.admin then createAccused u geo creator newId
  else Except.error ApiError.forbidden

/-- Modelled from the spec: role gate of `PUT /accused/{id}` — update
requires at least the admin role. -/
def updateEndpoint (who : Role) (r : Accused) (u : AccusedInput)
    (geo : GeoResult) (updater : String) : Except ApiError (Accused × Bool) :=
  if requireRole who Role.admin then updateAccused r u geo updater
  else Except.error ApiError.forbidden

/-! ## Search Service (spec section 4.4) -/

/-- The `search_type` selector sent by the Search page. -/
inductive SearchScope
  | all
  | name
  | phone
  | address
  | case_id
deriving Repr, DecidableEq

/-- Modelled from the spec: the per-record match of `search(queryText,
scope)` in the missing backend/server.py — with scope `all` the
case-insensitive substring must appear in the full name OR any phone
number OR the address OR the case id; a specific scope restricts the
match to that single field. -/
def matchesScope (q : String) (scope : SearchScope) (r : Accused) : Bool :=
  match scope with
  | SearchScope.all =>
      lcIncludes r.full_name q ||
      r.phone_numbers.any (fun p => lcIncludes p q) ||
      lcIncludes r.address q ||
      lcIncludes r.case_id q
  | SearchScope.name => lcIncludes r.full_name q
  | SearchScope.phone => r.phone_numbers.any (fun p => lcIncludes p q)
  | SearchScope.address => lcIncludes r.address q
  | SearchScope.case_id => lcIncludes r.case_id q

/-- Modelled from the spec: `search(queryText, scope)` of the missing
backend/server.py, keeping exactly the matching records of the store. -/
def searchAccused (q : String) (scope : SearchScope) (store : List Accused) :
    List Accused :=
  store.filter (matchesScope q scope)

/-- JavaScript `!s.trim()`: the string trims to the empty string, that
is, every character is whitespace. -/
def isBlank (s : String) : Bool :=
  s.data.all Char.isWhitespace

/-- Embedding of `handleSearch` from the Search page (App.js): a query
that is blank after trimming never reaches the server — the full record
list is shown; otherwise the server's search results are shown. -/
def handleSearchModel (searchQuery : String) (allAccused : List Accused)
    (serverResults : List Accused) : List Accused :=
  if isBlank searchQuery then allAccused else serverResults

/-! ## Dashboard Service (spec section 4.5) -/

/-- First-occurrence deduplication, accumulating the keys already seen. -/
def dedupSeen : List String → List String → List String
  | [], _ => []
  | x :: xs, seen =>
    if seen.contains x then dedupSeen xs seen else x :: dedupSeen xs (x :: seen)

/-- Distinct elements of a list, first occurrences kept in order. -/
def dedup (l : List String) : List String :=
  dedupSeen l []

/-- Insertion step of the descending sort used by the dashboard lists. -/
def insertDescBy {α : Type} (key : α → Nat) (x : α) : List α → List α
  | [] => [x]
  | y :: ys => if key y ≤ key x then x :: y :: ys else y :: insertDescBy key x ys

/-- Insertion sort, descending in the given numeric key. -/
def sortDescBy {α : Type} (key : α → Nat) : List α → List α
  | [] => []
  | x :: xs => insertDescBy key x (sortDescBy key xs)

/-- All tag occurrences across the store, in store order. -/
def allTags (store : List Accused) : List String :=
  (store.map (fun a => a.tags)).flatten

/-- Tag/count pairs of the dashboard, one per distinct tag. -/
def tagCounts (store : List Accused) : List (String × Nat) :=
  (dedup (allTags store)).map (fun t => (t, (allTags store).count t))

/-- Records of the store keyed by a given police station. -/
def stationGroup (store : List Accused) (s : String) : List Accused :=
  store.filter (fun a => a.police_station == s)

/-- Locality/count/total-amount triples of the dashboard, grouped by the
police-station field as recorded. -/
def cityGroups (store : List Accused) : List (String × Nat × Int) :=
  (dedup (store.map (fun a => a.police_station))).map (fun s =>
    (s, (stationGroup store s).length,
        ((stationGroup store s).map (fun a => a.fraud_amount)).sum))

/-- The `GET /dashboard/stats` payload. -/
structure StatsPayload where
  total_accused : Nat
  total_fraud_amount : Int
  top_fraud_types : List (String × Nat)
  city_stats : List (String × Nat × Int)
deriving Repr, DecidableEq

/-- Modelled from the spec: `stats()` of the missing backend/server.py —
pure read-side aggregation over the full Record Store, recomputed per
call: record count, fraud-amount sum, tag counts sorted descending by
count, and police-station groups sorted descending by count. -/
def statsOf (store : List Accused) : StatsPayload :=
  { total_accused := store.length
    total_fraud_amount := (store.map (fun a => a.fraud_amount)).sum
    top_fraud_types := sortDescBy (fun p => p.2) (tagCounts store)
    city_stats := sortDescBy (fun p => p.2.1) (cityGroups store) }

/-! ## Photo Service (spec section 4.6, PhotoUpload in Navbar.js) -/

/-- The content-type whitelist of `PhotoUpload.handleFileSelect`
(Navbar.js): `['image/jpeg', 'image/jpg', 'image/png', 'image/webp']` —
the jpeg, png and webp image families. -/
def allowedTypes : List String :=
  ["image/jpeg", "image/jpg", "image/png", "image/webp"]

/-- The 5 MiB limit of `PhotoUpload.handleFileSelect`: `5 * 1024 * 1024`. -/
def maxPhotoSize : Nat := 5 * 1024 * 1024

/-- Embedding of the validation in `PhotoUpload.handleFileSelect`
(Navbar.js), which the spec also imposes on the server side: an
oversized payload is rejected first, then a content type outside the
whitelist; `none` means the file is acceptable. -/
def validatePhoto (size : Nat) (contentType : String) : Option String :=
  if maxPhotoSize < size then some "File size must be less than 5MB"
  else if !(allowedTypes.contains contentType) then
    some "Please select a valid image file (JPEG, PNG, WebP)"
  else none

/-- Modelled from the spec: `upload(fileBytes, declaredContentType)` of
the Photo Service in the missing backend/server.py — validation failures
return a ValidationError and leave the store untouched; a valid payload
is stored under a fresh collision-resistant name and a reference path is
returned. -/
def uploadPhoto (size : Nat) (contentType : String) (bytes : List Nat)
    (freshName : String) (store : List (String × List Nat)) :
    Except String String × List (String × List Nat) :=
  match validatePhoto size contentType with
  | some e => (Except.error e, store)
  | none => (Except.ok ("/api/uploads/" ++ freshName), (freshName, bytes) :: store)

/-! ## Reachable Record Store states -/

/-- Record Store states reachable through the public operations: the
empty store, a successful create appending its record, a successful
update replacing the record in place, and a delete filtering it out. -/
inductive Reachable : List Accused → Prop
  | empty : Reachable []
  | create (s : List Accused) (u : AccusedInput) (geo : GeoResult)
      (creator newId : String) (rec : Accused) :
      Reachable s → createAccused u geo creator newId = Except.ok rec →
      Reachable (s ++ [rec])
  | update (s : List Accused) (i : Nat) (hi : i < s.length) (u : AccusedInput)
      (geo : GeoResult) (updater : String) (rec : Accused) (b : Bool) :
      Reachable s → updateAccused (s.get ⟨i, hi⟩) u geo updater = Except.ok (rec, b) →
      Reachable (s.set i rec)
  | delete (s : List Accused) (id : String) :
      Reachable s → Reachable (s.filter (fun a => !(a.accused_id == id)))

/-! ## Sample data used by the witnesses -/

/-- A form payload as submitted from ManageAccused, auto-geocoding. -/
def sampleInput : AccusedInput :=
  { full_name := "Rajesh Kumar"
    phone_numbers := ["+91-9876543210"]
    address := "Connaught Place, New Delhi"
    fraud_amount := 250000
    case_id := "FIR/2024/001"
    fir_details := "Loan fraud complaint registered"
    police_station := "Connaught Place PS"
    tags := ["loan fraud"]
    profile_photo := none
    latitude := none
    longitude := none
    manual_coordinates := false }

/-- The record `createAccused sampleInput GeoResult.notFound "admin" "acc-1"`
persists: coordinates absent because the geocoder found nothing. -/
def sampleCreated : Accused :=
  { accused_id := "acc-1"
    full_name := "Rajesh Kumar"
    phone_numbers := ["+91-9876543210"]
    address := "Connaught Place, New Delhi"
    fraud_amount := 250000
    case_id := "FIR/2024/001"
    fir_details := "Loan fraud complaint registered"
    police_station := "Connaught Place PS"
    tags := ["loan fraud"]
    profile_photo := none
    latitude := none
    longitude := none
    manual_coordinates := false
    created_by := "admin"
    updated_by := none }

/-- A stored record that already carries geocoded coordinates. -/
def sampleStored : Accused :=
  { accused_id := "acc-2"
    full_name := "Amit Sharma"
    phone_numbers := ["+91-9123456780"]
    address := "Bandra West, Mumbai"
    fraud_amount := 500000
    case_id := "FIR/2024/002"
    fir_details := "Crypto scam complaint registered"
    police_station := "Bandra PS"
    tags := ["crypto scam"]
    profile_photo := none
    latitude := some 19
    longitude := some 72
    manual_coordinates := false
    created_by := "admin"
    updated_by := none }

/-- An update payload for `sampleStored` that changes the address. -/
def sampleMove : AccusedInput :=
  { full_name := "Amit Sharma"
    phone_numbers := ["+91-9123456780"]
    address := "Andheri East, Mumbai"
    fraud_amount := 500000
    case_id := "FIR/2024/002"
    fir_details := "Crypto scam complaint registered"
    police_station := "Bandra PS"
    tags := ["crypto scam"]
    profile_photo := none
    latitude := some 19
    longitude := some 72
    manual_coordinates := false }

/-! ## C10: the 401 interceptor -/

/-- C10: for every response the client receives, status 401 — and no
other status — makes the interceptor in utils/api.js remove the stored
bearer token from localStorage and redirect the browser to `/login`;
any other status leaves the client state untouched. -/
theorem interceptor_clears_token_iff_401 (st : ClientState) (status : Nat) :
    (status = 401 →
      onResponseStatus st status = { token := none, location := "/login" }) ∧
    (status ≠ 401 → onResponseStatus st status = st) := by
  constructor
  · intro h
    subst h
    simp [onResponseStatus]
  · intro h
    unfold onResponseStatus
    split
    · rfl
    · simp [h]

/-! ## C4: the client-side post-filters -/

/-- C4: a record survives `applyFilters` exactly when it is in the base
result set and passes every filter that is switched on — fraud amount at
least the threshold (inclusive), locality substring in the police
station or the address (case-insensitive), and some tag containing the
tag query (case-insensitive); composing filters is conjunction. -/
theorem applyFilters_exact (base : List Accused) (filterAmount : Option Int)
    (filterCity filterTag : Option String) (a : Accused) :
    a ∈ applyFilters base filterAmount filterCity filterTag ↔
      a ∈ base ∧
      (∀ m, filterAmount = some m → m ≤ a.fraud_amount) ∧
      (∀ c, filterCity = some c →
        (lcIncludes a.police_station c || lcIncludes a.address c) = true) ∧
      (∀ t, filterTag = some t →
        (a.tags.any fun tag => lcIncludes tag t) = true) := by
  unfold applyFilters
  cases filterAmount <;> cases filterCity <;> cases filterTag <;>
    simp [List.mem_filter] <;> tauto

/-! ## C8: empty query returns the full list -/

/-- C8: searching with the empty query under scope `all` returns the
record store unchanged — both in the modelled backend search (the empty
substring matches every full name) and in the Search page's
`handleSearch`, which short-circuits a blank query to the full list
without calling the server. -/
theorem search_empty_query_is_list (store serverResults : List Accused) :
    searchAccused "" SearchScope.all store = store ∧
    handleSearchModel "" store serverResults = store := by
  constructor
  · unfold searchAccused
    apply List.filter_eq_self.mpr
    intro a _
    simp [matchesScope, lcIncludes_empty]
  · rfl

/-! ## C6: photo upload validation -/

/-- C6: an upload whose payload exceeds 5 MiB or whose declared content
type is outside the jpeg/png/webp whitelist is rejected with a
validation error and leaves the photo store untouched; every payload of
at most 5 MiB with a whitelisted content type succeeds and returns a
reference path — in particular a 6 MiB file is rejected and a 2 MiB PNG
is accepted. -/
theorem upload_rejects_invalid_accepts_valid (size : Nat) (contentType : String)
    (bytes : List Nat) (freshName : String) (store : List (String × List Nat)) :
    (maxPhotoSize < size ∨ allowedTypes.contains contentType = false →
      ∃ e, uploadPhoto size contentType bytes freshName store =
        (Except.error e, store)) ∧
    (size ≤ maxPhotoSize → allowedTypes.contains contentType = true →
      uploadPhoto size contentType bytes freshName store =
        (Except.ok ("/api/uploads/" ++ freshName), (freshName, bytes) :: store)) ∧
    (∃ e, uploadPhoto (6 * 1024 * 1024) "image/png" bytes freshName store =
      (Except.error e, store)) ∧
    uploadPhoto (2 * 1024 * 1024) "image/png" bytes freshName store =
      (Except.ok ("/api/uploads/" ++ freshName), (freshName, bytes) :: store) := by
  refine ⟨?_, ?_, ?_, ?_⟩
  · intro h
    unfold uploadPhoto validatePhoto
    rcases h with h | h
    · rw [if_pos h]
      exact ⟨_, rfl⟩
    · by_cases hs : maxPhotoSize < size
      · rw [if_pos hs]
        exact ⟨_, rfl⟩
      · rw [if_neg hs, if_pos (by rw [h]; decide)]
        exact ⟨_, rfl⟩
  · intro hs ht
    unfold uploadPhoto validatePhoto
    rw [if_neg (by omega), if_neg (by rw [ht]; decide)]
  · unfold uploadPhoto validatePhoto
    rw [if_pos (by decide)]
    exact ⟨_, rfl⟩
  · unfold uploadPhoto validatePhoto
    rw [if_neg (by decide), if_neg (by decide)]

/-! ## C1: the update re-geocoding decision -/

/-- C1: a valid update of an existing record performs a geocoding call
exactly when the input's `manual_coordinates` is false and either the
input's address differs from the stored one or the stored coordinates
are absent; when no call is made, the updated record keeps the stored
latitude and longitude unchanged. -/
theorem update_geocodes_iff (r : Accused) (u : AccusedInput) (geo : GeoResult)
    (updater : String) (hv : validInput u = true) :
    ∃ rec b, updateAccused r u geo updater = Except.ok (rec, b) ∧
      (b = true ↔
        u.manual_coordinates = false ∧
          (u.address ≠ r.address ∨ coordsAbsent r = true)) ∧
      (b = false → rec.latitude = r.latitude ∧ rec.longitude = r.longitude) := by
  unfold updateAccused
  rw [if_pos hv]
  refine ⟨_, _, rfl, ?_, ?_⟩
  · unfold shouldGeocodeOnUpdate
    simp [Bool.and_eq_true, decide_eq_true_iff]
  · intro hb
    simp [hb]

/-- Witness for C1: updating `sampleStored` with `sampleMove` (address
changed, `manual_coordinates` false) at a concrete geocoder outcome. -/
theorem update_geocodes_iff_witness :
    ∃ rec b, updateAccused sampleStored sampleMove GeoResult.notFound "inspector" =
        Except.ok (rec, b) ∧
      (b = true ↔
        sampleMove.manual_coordinates = false ∧
          (sampleMove.address ≠ sampleStored.address ∨ coordsAbsent sampleStored = true)) ∧
      (b = false →
        rec.latitude = sampleStored.latitude ∧ rec.longitude = sampleStored.longitude) :=
  update_geocodes_iff sampleStored sampleMove GeoResult.notFound "inspector" (by decide)

/-! ## C3: create survives geocoding failure -/

/-- C3: a valid create with `manual_coordinates = false` whose geocoding
call returns not-found, times out, or fails with a service error still
succeeds and persists the record with latitude and longitude absent —
the geocoding failure is never surfaced to the caller. -/
theorem create_survives_geocode_failure (u : AccusedInput) (geo : GeoResult)
    (creator newId : String) (hv : validInput u = true)
    (hm : u.manual_coordinates = false)
    (hg : geo = GeoResult.notFound ∨ geo = GeoResult.timeout ∨
      geo = GeoResult.serviceError) :
    ∃ rec, createAccused u geo creator newId = Except.ok rec ∧
      rec.latitude = none ∧ rec.longitude = none := by
  unfold createAccused
  rw [if_pos hv]
  refine ⟨_, rfl, ?_, ?_⟩ <;>
    · simp only [hm, Bool.false_eq_true, if_false]
      rcases hg with h | h | h <;> subst h <;> rfl

/-- Witness for C3: creating from `sampleInput` while the geocoder times
out still yields a stored record without coordinates. -/
theorem create_survives_geocode_failure_witness :
    ∃ rec, createAccused sampleInput GeoResult.timeout "admin" "acc-1" =
        Except.ok rec ∧ rec.latitude = none ∧ rec.longitude = none :=
  create_survives_geocode_failure sampleInput GeoResult.timeout "admin" "acc-1"
    (by decide) (by decide) (Or.inr (Or.inl rfl))

/-! ## C5: role gates -/

/-- C5: a delete attempted by a user- or admin-role identity is rejected
with Forbidden (403) and the Record Store is unchanged, so the record is
still retrievable afterward; a superadmin's delete of an existing record
succeeds; create and update are forbidden to the user role while the
admin gate admits admin and superadmin and rejects user. -/
theorem role_gates (who : Role) (r : Accused) (store : List Accused)
    (u : AccusedInput) (geo : GeoResult) (updater newId : String)
    (h : who = Role.user ∨ who = Role.admin) :
    deleteEndpoint who r.accused_id store = (Except.error ApiError.forbidden, store) ∧
    getAccused r.accused_id (deleteEndpoint who r.accused_id store).2 =
      getAccused r.accused_id store ∧
    (store.any (fun a => a.accused_id == r.accused_id) = true →
      (deleteEndpoint Role.superadmin r.accused_id store).1 = Except.ok ()) ∧
    createEndpoint Role.user u geo updater newId = Except.error ApiError.forbidden ∧
    updateEndpoint Role.user r u geo updater = Except.error ApiError.forbidden ∧
    requireRole Role.admin Role.admin = true ∧
    requireRole Role.superadmin Role.admin = true ∧
    requireRole Role.user Role.admin = false := by
  have hne : who ≠ Role.superadmin := by rcases h with h | h <;> subst h <;> decide
  refine ⟨?_, ?_, ?_, ?_, ?_, by decide, by decide, by decide⟩
  · unfold deleteEndpoint
    rw [if_pos hne]
  · unfold deleteEndpoint
    rw [if_pos hne]
  · intro hx
    unfold deleteEndpoint
    rw [if_neg (by decide), if_pos hx]
  · unfold createEndpoint
    rw [if_neg (by decide)]
  · unfold updateEndpoint
    rw [if_neg (by decide)]

/-- Witness for C5: the admin role cannot delete `sampleStored` from the
singleton store holding it, and the record stays retrievable. -/
theorem role_gates_witness :
    deleteEndpoint Role.admin sampleStored.accused_id [sampleStored] =
      (Except.error ApiError.forbidden, [sampleStored]) ∧
    getAccused sampleStored.accused_id
        (deleteEndpoint Role.admin sampleStored.accused_id [sampleStored]).2 =
      getAccused sampleStored.accused_id [sampleStored] ∧
    ([sampleStored].any (fun a => a.accused_id == sampleStored.accused_id) = true →
      (deleteEndpoint Role.superadmin sampleStored.accused_id [sampleStored]).1 =
        Except.ok ()) ∧
    createEndpoint Role.user sampleInput GeoResult.notFound "seed" "acc-9" =
      Except.error ApiError.forbidden ∧
    updateEndpoint Role.user sampleStored sampleMove GeoResult.notFound "seed" =
      Except.error ApiError.forbidden ∧
    requireRole Role.admin Role.admin = true ∧
    requireRole Role.superadmin Role.admin = true ∧
    requireRole Role.user Role.admin = false :=
  role_gates Role.admin sampleStored [sampleStored] sampleInput GeoResult.notFound
    "seed" "acc-9" (Or.inr rfl)

/-! ## C2: search field exactness -/

/-- C2: a record is in the scope-`all` search result exactly when the
query appears case-insensitively in its full name, one of its phone
numbers, its address, or its case id; a specific scope restricts the
match to that one field, so a record whose full name does not contain
the query is excluded from a name-scoped search even if its address
matches. -/
theorem search_scope_exact (q : String) (store : List Accused) (r : Accused) :
    (r ∈ searchAccused q SearchScope.all store ↔
      r ∈ store ∧
        (lcIncludes r.full_name q = true ∨
         (∃ p ∈ r.phone_numbers, lcIncludes p q = true) ∨
         lcIncludes r.address q = true ∨
         lcIncludes r.case_id q = true)) ∧
    (∀ scope, r ∈ searchAccused q scope store ↔
      r ∈ store ∧ matchesScope q scope r = true) ∧
    (lcIncludes r.full_name q = false → r ∉ searchAccused q SearchScope.name store) := by
  refine ⟨?_, ?_, ?_⟩
  · constructor
    · intro hm
      have h1 := List.mem_filter.mp hm
      refine ⟨h1.1, ?_⟩
      have h2 := h1.2
      simp only [matchesScope, Bool.or_eq_true, List.any_eq_true] at h2
      rcases h2 with ((hf | hp) | ha) | hc
      · exact Or.inl hf
      · exact Or.inr (Or.inl hp)
      · exact Or.inr (Or.inr (Or.inl ha))
      · exact Or.inr (Or.inr (Or.inr hc))
    · rintro ⟨hm, hc⟩
      refine List.mem_filter.mpr ⟨hm, ?_⟩
      simp only [matchesScope, Bool.or_eq_true, List.any_eq_true]
      rcases hc with hf | hp | ha | hc
      · exact Or.inl (Or.inl (Or.inl hf))
      · exact Or.inl (Or.inl (Or.inr hp))
      · exact Or.inl (Or.inr ha)
      · exact Or.inr hc
  · intro scope
    simp [searchAccused, List.mem_filter]
  · intro hname hmem
    have := (List.mem_filter.mp hmem).2
    rw [matchesScope] at this
    rw [hname] at this
    cases this

/-! ## C9: latitude and longitude are present together -/

theorem manualCoords_paired (u : AccusedInput) :
    (manualCoords u).1.isSome = (manualCoords u).2.isSome := by
  unfold manualCoords
  cases u.latitude <;> cases u.longitude <;> rfl

theorem geoCoords_paired (geo : GeoResult) :
    (geoCoords geo).1.isSome = (geoCoords geo).2.isSome := by
  cases geo <;> rfl

theorem createAccused_coords_paired {u : AccusedInput} {geo : GeoResult}
    {creator newId : String} {rec : Accused}
    (h : createAccused u geo creator newId = Except.ok rec) :
    rec.latitude.isSome = rec.longitude.isSome := by
  unfold createAccused at h
  by_cases hv : validInput u = true
  · rw [if_pos hv] at h
    simp only [Except.ok.injEq] at h
    subst h
    dsimp only
    split
    · exact manualCoords_paired u
    · exact geoCoords_paired geo
  · rw [if_neg hv] at h
    cases h

theorem updateAccused_coords_paired {r : Accused} {u : AccusedInput}
    {geo : GeoResult} {updater : String} {rec : Accused} {b : Bool}
    (hr : r.latitude.isSome = r.longitude.isSome)
    (h : updateAccused r u geo updater = Except.ok (rec, b)) :
    rec.latitude.isSome = rec.longitude.isSome := by
  unfold updateAccused at h
  by_cases hv : validInput u = true
  · rw [if_pos hv] at h
    simp only [Except.ok.injEq, Prod.mk.injEq] at h
    obtain ⟨h1, h2⟩ := h
    subst h1
    dsimp only
    split
    · exact geoCoords_paired geo
    · exact hr
  · rw [if_neg hv] at h
    cases h

/-- C9: in every Record Store state reachable through the public create,
update and delete operations, a record's latitude is present exactly
when its longitude is — no operation persists a record with exactly one
of the two coordinates set. -/
theorem coords_present_together (s : List Accused) (h : Reachable s) :
    ∀ a ∈ s, a.latitude.isSome = a.longitude.isSome := by
  induction h with
  | empty =>
      intro a ha
      cases ha
  | create s u geo creator newId rec hs hok ih =>
      intro a ha
      rcases List.mem_append.mp ha with h1 | h2
      · exact ih a h1
      · have heq : a = rec := by
          cases h2 with
          | head => rfl
          | tail _ h3 => cases h3
        subst heq
        exact createAccused_coords_paired hok
  | update s i hi u geo updater rec b hs hok ih =>
      intro a ha
      rcases List.mem_or_eq_of_mem_set ha with h1 | h2
      · exact ih a h1
      · subst h2
        exact updateAccused_coords_paired (ih _ (List.get_mem s i hi)) hok
  | delete s id hs ih =>
      intro a ha
      exact ih a (List.mem_of_mem_filter ha)

/-- Witness for C9: the store reached by one successful create from the
empty store keeps the created record's coordinates paired. -/
theorem coords_present_together_witness :
    sampleCreated.latitude.isSome = sampleCreated.longitude.isSome :=
  coords_present_together ([] ++ [sampleCreated])
    (Reachable.create [] sampleInput GeoResult.notFound "admin" "acc-1" sampleCreated
      Reachable.empty rfl)
    sampleCreated (by simp)

/-! ## C7: dashboard statistics -/

theorem mem_insertDescBy {α : Type} (key : α → Nat) (x a : α) (l : List α) :
    a ∈ insertDescBy key x l ↔ a = x ∨ a ∈ l := by
  induction l with
  | nil => simp [insertDescBy]
  | cons y ys ih =>
      unfold insertDescBy
      split
      · simp
      · simp only [List.mem_cons, ih]
        tauto

theorem pairwise_insertDescBy {α : Type} (key : α → Nat) (x : α) (l : List α)
    (hl : List.Pairwise (fun a b => key b ≤ key a) l) :
    List.Pairwise (fun a b => key b ≤ key a) (insertDescBy key x l) := by
  induction l with
  | nil => simp [insertDescBy]
  | cons y ys ih =>
      rcases List.pairwise_cons.mp hl with ⟨hy, hys⟩
      unfold insertDescBy
      split
      · rename_i hk
        refine List.pairwise_cons.mpr ⟨?_, hl⟩
        intro b hb
        rcases List.mem_cons.mp hb with h1 | h2
        · subst h1
          exact hk
        · exact le_trans (hy b h2) hk
      · rename_i hk
        refine List.pairwise_cons.mpr ⟨?_, ih hys⟩
        intro b hb
        rcases (mem_insertDescBy key x b ys).mp hb with h1 | h2
        · subst h1
          omega
        · exact hy b h2

theorem pairwise_sortDescBy {α : Type} (key : α → Nat) (l : List α) :
    List.Pairwise (fun a b => key b ≤ key a) (sortDescBy key l) := by
  induction l with
  | nil => exact List.Pairwise.nil
  | cons x xs ih => exact pairwise_insertDescBy key x (sortDescBy key xs) ih

theorem mem_sortDescBy {α : Type} (key : α → Nat) (a : α) (l : List α) :
    a ∈ sortDescBy key l ↔ a ∈ l := by
  induction l with
  | nil => simp [sortDescBy]
  | cons x xs ih =>
      unfold sortDescBy
      rw [mem_insertDescBy, ih]
      simp

theorem mem_dedupSeen (l : List String) (seen : List String) (x : String) :
    x ∈ dedupSeen l seen ↔ x ∈ l ∧ ¬x ∈ seen := by
  induction l generalizing seen with
  | nil => simp [dedupSeen]
  | cons y ys ih =>
      unfold dedupSeen
      split
      · rename_i hy
        have hym : y ∈ seen := List.elem_iff.mp hy
        have hxy : x = y → x ∈ seen := fun h => h ▸ hym
        rw [ih]
        simp only [List.mem_cons]
        tauto
      · rename_i hy
        have hym : ¬y ∈ seen := fun hm => hy (List.elem_iff.mpr hm)
        have hxy : x = y → ¬x ∈ seen := fun h => h ▸ hym
        simp only [List.mem_cons, ih]
        tauto

theorem mem_dedup (l : List String) (x : String) : x ∈ dedup l ↔ x ∈ l := by
  unfold dedup
  rw [mem_dedupSeen]
  simp

theorem tagCounts_count (store : List Accused) (p : String × Nat)
    (hp : p ∈ tagCounts store) : p.2 = (allTags store).count p.1 := by
  unfold tagCounts at hp
  rcases List.mem_map.mp hp with ⟨t, _, heq⟩
  rw [← heq]

theorem tagCounts_keys (store : List Accused) (t : String) :
    (∃ c, (t, c) ∈ tagCounts store) ↔ t ∈ allTags store := by
  unfold tagCounts
  constructor
  · rintro ⟨c, hc⟩
    rcases List.mem_map.mp hc with ⟨t2, ht2, heq⟩
    have : t2 = t := congrArg Prod.fst heq
    subst this
    exact (mem_dedup _ t2).mp ht2
  · intro ht
    exact ⟨(allTags store).count t,
      List.mem_map.mpr ⟨t, (mem_dedup _ t).mpr ht, rfl⟩⟩

theorem cityGroups_counts (store : List Accused) (p : String × Nat × Int)
    (hp : p ∈ cityGroups store) :
    p.2.1 = (stationGroup store p.1).length ∧
    p.2.2 = ((stationGroup store p.1).map (fun a => a.fraud_amount)).sum := by
  unfold cityGroups at hp
  rcases List.mem_map.mp hp with ⟨s, _, heq⟩
  rw [← heq]
  exact ⟨rfl, rfl⟩

theorem cityGroups_keys (store : List Accused) (c : String) :
    (∃ n m, (c, n, m) ∈ cityGroups store) ↔
      c ∈ store.map (fun a => a.police_station) := by
  unfold cityGroups
  constructor
  · rintro ⟨n, m, hc⟩
    rcases List.mem_map.mp hc with ⟨s, hs, heq⟩
    have : s = c := congrArg Prod.fst heq
    subst this
    exact (mem_dedup _ s).mp hs
  · intro hc
    refine ⟨(stationGroup store c).length,
      ((stationGroup store c).map (fun a => a.fraud_amount)).sum,
      List.mem_map.mpr ⟨c, (mem_dedup _ c).mpr hc, rfl⟩⟩

/-- C7: `stats()` reports the record count, the sum of fraud amounts
over all records, tag/count pairs whose counts are exact and which are
sorted descending by count, and police-station groups with exact counts
and amount totals, also sorted descending by count — all recomputed from
the store passed at call time. -/
theorem stats_exact (store : List Accused) :
    (statsOf store).total_accused = store.length ∧
    (statsOf store).total_fraud_amount = (store.map (fun a => a.fraud_amount)).sum ∧
    List.Pairwise (fun p q => q.2 ≤ p.2) (statsOf store).top_fraud_types ∧
    (∀ p ∈ (statsOf store).top_fraud_types, p.2 = (allTags store).count p.1) ∧
    (∀ t, (∃ c, (t, c) ∈ (statsOf store).top_fraud_types) ↔ t ∈ allTags store) ∧
    List.Pairwise (fun p q => q.2.1 ≤ p.2.1) (statsOf store).city_stats ∧
    (∀ p ∈ (statsOf store).city_stats,
      p.2.1 = (stationGroup store p.1).length ∧
      p.2.2 = ((stationGroup store p.1).map (fun a => a.fraud_amount)).sum) ∧
    (∀ c, (∃ n m, (c, n, m) ∈ (statsOf store).city_stats) ↔
      c ∈ store.map (fun a => a.police_station)) := by
  refine ⟨rfl, rfl, ?_, ?_, ?_, ?_, ?_, ?_⟩
  · exact pairwise_sortDescBy _ _
  · intro p hp
    exact tagCounts_count store p ((mem_sortDescBy _ p _).mp hp)
  · intro t
    rw [← tagCounts_keys store t]
    constructor
    · rintro ⟨c, hc⟩
      exact ⟨c, (mem_sortDescBy _ _ _).mp hc⟩
    · rintro ⟨c, hc⟩
      exact ⟨c, (mem_sortDescBy _ _ _).mpr hc⟩
  · exact pairwise_sortDescBy _ _
  · intro p hp
    exact cityGroups_counts store p ((mem_sortDescBy _ p _).mp hp)
  · intro c
    rw [← cityGroups_keys store c]
    constructor
    · rintro ⟨n, m, hc⟩
      exact ⟨n, m, (mem_sortDescBy _ _ _).mp hc⟩
    · rintro ⟨n, m, hc⟩
      exact ⟨n, m, (mem_sortDescBy _ _ _).mpr hc⟩
